import Mathlib

/-!
Verification development for the harbour-lane-shipping carrier service.

This file gives a shallow embedding, in Lean, of the core of the repository:

* `src/utils/postcode.js` — postcode normalization and zone matching;
* `src/services/zoneService.js` — the in-memory zones cache, its load/refresh
  logic and the two-pass zone scan of `findMatchingZone`;
* `src/services/inquiryService.js` — `findRecentInquiry`, `updateInquiry`
  and `createInquiry` over an explicit relational-store model;
* the carrier rates handler `handleCarrierRates` (the current version of
  `src/routes/rates.js`, the one that answers first and then runs the
  draft-order/inquiry pipeline in a `setImmediate` background task with
  email-based deduplication).

JavaScript features are modelled explicitly: nullable values are `Option`,
string falsiness (`""`, `null`, `undefined`) is `strTruthy`, the `x || y`
operator is `jsOr2`/`jsNull`, and SQL bind parameters are the `SqlParam`
type with an explicit `undef` constructor, because the database layer
(`src/db/config.js`) executes statements through mysql2 `pool.execute`,
which rejects any `undefined` bind parameter with the error
"Bind parameters must not contain undefined" instead of binding SQL NULL.

Time is in integer milliseconds. Database reads by the cache loader are an
oracle `Nat → DbOutcome` giving the outcome of each retry attempt; the
external draft-order gateway is a `DraftOutcome` oracle.
-/

/-! ## Postcode normalization (src/utils/postcode.js) -/

/-- Keep only the decimal digit characters of a string, as in the
JavaScript `replace(/\D/g, "")`. -/
def stripNonDigits (s : String) : String :=
  String.mk (s.data.filter Char.isDigit)

/-- Embedding of `normalizePostcode` (src/utils/postcode.js lines 13-28):
a falsy input (null, undefined, empty string) gives null; otherwise every
non-digit character is removed and the result must be exactly 4 digits.
Trimming and upper-casing in the source cannot change the digit sequence,
so they are absorbed by the digit filter. -/
def normalizePostcode : Option String → Option String
  | none => none
  | some s =>
    if s = "" then none
    else
      let d := stripNonDigits s
      if d.length = 4 then some d else none

/-- Remove every star character, as in `zonePostcode.replace(/\*/g, "")`. -/
def stripStars (s : String) : String :=
  String.mk (s.data.filter (fun c => !(c == '*')))

/-- The JavaScript `startsWith` test, as a character-list prefix check. -/
def startsWithChars (pre s : String) : Bool :=
  List.isPrefixOf pre.data s.data

/-- Embedding of `matchesZone` (src/utils/postcode.js lines 34-47). For a
pattern zone the star-stripped pattern must be a string prefix of the
normalized postcode; for an exact zone the normalized pattern must equal
the normalized postcode (a pattern that fails to normalize matches
nothing, as the JavaScript strict equality against null is false). -/
def matchesZone (postcode : Option String) (zonePostcode : String) ( isPfx : Bool) : Bool :=
  match normalizePostcode postcode with
  | none => false
  | some n =>
    if isPfx then startsWithChars (stripStars zonePostcode) n
    else
      match normalizePostcode (some zonePostcode) with
      | some nz => decide (n = nz)
      | none => false

/-! ## Zones and the two-pass scan (src/services/zoneService.js) -/

/-- One row of the zones cache: a zone joined with its (active) warehouse,
as produced by the SELECT in `loadZonesCache`. The tinyint `prefix` column
(`zone.prefix === 1 || zone.prefix === true` in the scan) is modelled as
the boolean field `isPfx`. -/
structure Zone where
  id : Nat
  warehouseId : Nat
  postcode : String
  isPfx : Bool
  warehouseName : String
deriving Repr, DecidableEq

/-- Result record of a successful zone match, with the `matchType` tag
("exact" or "prefix") from `findMatchingZone`. -/
structure ZoneMatch where
  zoneId : Nat
  warehouseId : Nat
  warehouseName : String
  matchType : String
deriving Repr, DecidableEq

/-- First pass of `findMatchingZone` (src/services/zoneService.js lines
158-171): the first non-pattern zone whose pattern matches exactly. -/
def findExact : List Zone → String → Option Zone
  | [], _ => none
  | z :: zs, n =>
    if !z.isPfx && matchesZone (some n) z.postcode false then some z
    else findExact zs n

/-- Second pass of `findMatchingZone` (src/services/zoneService.js lines
173-185): the first pattern zone whose pattern is a prefix of the
postcode. -/
def findPfx : List Zone → String → Option Zone
  | [], _ => none
  | z :: zs, n =>
    if z.isPfx && matchesZone (some n) z.postcode true then some z
    else findPfx zs n

/-- Two-pass scan over a cache snapshot (src/services/zoneService.js lines
156-188): all exact zones are tried before any pattern zone is examined. -/
def scanZones (cache : List Zone) (n : String) : Option ZoneMatch :=
  match findExact cache n with
  | some z => some ⟨z.id, z.warehouseId, z.warehouseName, "exact"⟩
  | none =>
    match findPfx cache n with
    | some z => some ⟨z.id, z.warehouseId, z.warehouseName, "prefix"⟩
    | none => none

/-! ## Cache state, load, refresh (src/services/zoneService.js) -/

/-- Module-level mutable state of the zone service: the `zonesCache`
variable (null until first assignment) and the `cacheTimestamp` variable
(milliseconds). -/
structure CacheState where
  zonesCache : Option (List Zone)
  cacheTimestamp : Option Nat
deriving Repr, DecidableEq

/-- The cache TTL, `CACHE_TTL = 5 * 60 * 1000`. -/
def CACHE_TTL : Nat := 5 * 60 * 1000

/-- Outcome of one database attempt inside `loadZonesCache`: either the
joined active-warehouse zone rows, or an error whose `isConn` flag says
whether the retry classifier (`ETIMEDOUT`/`ECONNREFUSED`/timeout or
disconnected message) treats it as a connection error. -/
inductive DbOutcome where
  | ok (zones : List Zone)
  | err (isConn : Bool)
deriving Repr, DecidableEq

/-- True when the outcome is an error. -/
def DbOutcome.isErr : DbOutcome → Bool
  | .ok _ => false
  | .err _ => true

/-- Terminal failure path of `loadZonesCache` (src/services/zoneService.js
lines 53-65): when the cache is null or empty it is set to the explicit
empty snapshot with a fresh timestamp; an existing non-empty cache is left
untouched. The function then returns the empty list. -/
def loadFailState (st : CacheState) (now : Nat) : CacheState × List Zone :=
  match st.zonesCache with
  | none => (⟨some [], some now⟩, [])
  | some zs => if zs.isEmpty then (⟨some [], some now⟩, []) else (st, [])

/-- Retry loop body of `loadZonesCache` (src/services/zoneService.js lines
19-68), indexed by the current attempt. A successful query replaces the
snapshot and the timestamp; a connection-class error with retries left
moves to the next attempt; any other failure (or the last attempt) takes
the terminal failure path. -/
def loadZonesFrom (oracle : Nat → DbOutcome) (retries : Nat) (now : Nat)
    (st : CacheState) (attempt : Nat) : CacheState × List Zone :=
  if _h : attempt < retries then
    match oracle attempt with
    | .ok zones => (⟨some zones, some now⟩, zones)
    | .err isConn =>
      if h2 : attempt < retries - 1 ∧ isConn = true then
        loadZonesFrom oracle retries now st (attempt + 1)
      else loadFailState st now
  else (st, [])
termination_by retries - attempt
decreasing_by omega

/-- Embedding of `loadZonesCache(retries = 3)`. -/
def loadZonesCache (oracle : Nat → DbOutcome) (retries : Nat) (now : Nat)
    (st : CacheState) : CacheState × List Zone :=
  loadZonesFrom oracle retries now st 0

/-- JavaScript truthiness of the `cacheTimestamp` variable: null and 0 are
falsy. -/
def tsTruthy : Option Nat → Bool
  | none => false
  | some t => decide (t ≠ 0)

/-- Staleness test of `ensureCacheFresh` (src/services/zoneService.js line
75): no cache yet, falsy timestamp, or age strictly above the TTL.
Natural subtraction agrees with the JavaScript comparison because a
negative age is never greater than the TTL. -/
def cacheIsStale (st : CacheState) (now : Nat) : Bool :=
  st.zonesCache.isNone || !(tsTruthy st.cacheTimestamp) ||
    decide (now - st.cacheTimestamp.getD 0 > CACHE_TTL)

/-- Embedding of `ensureCacheFresh` (src/services/zoneService.js lines
74-86); the boolean records whether a store reload was triggered.
`loadZonesCache` never throws (its errors are handled internally), so the
surrounding try/catch has no effect. -/
def ensureCacheFresh (oracle : Nat → DbOutcome) (st : CacheState) (now : Nat) :
    CacheState × Bool :=
  if cacheIsStale st now then ((loadZonesCache oracle 3 now st).1, true)
  else (st, false)

/-- Freshness test at the top of `findMatchingZone` (src/services/
zoneService.js lines 105-106): non-null non-empty cache whose age is
strictly below the TTL, with a falsy timestamp giving infinite age. -/
def isCacheFresh (st : CacheState) (now : Nat) : Bool :=
  match st.zonesCache with
  | none => false
  | some zs =>
    !zs.isEmpty &&
      (match st.cacheTimestamp with
       | none => false
       | some t => if t = 0 then false else decide (now - t < CACHE_TTL))

/-- Result of one `findMatchingZone` call: the cache state after the call,
the optional match, whether a store reload ran, and whether the call got
past normalization to the cache logic at all (the claim-relevant notion of
touching the ZoneCache). -/
structure LookupResult where
  state : CacheState
  result : Option ZoneMatch
  didReload : Bool
  cacheAccessed : Bool
deriving Repr, DecidableEq

/-- Cache state and reload flag used by `findMatchingZone`: a fresh cache
is used as is, otherwise `ensureCacheFresh` runs (the `Promise.race`
timeout in the source only logs; the reload still completes and is
awaited by nothing else in this sequential model). -/
def lookupState (oracle : Nat → DbOutcome) (st : CacheState) (now : Nat) :
    CacheState × Bool :=
  if isCacheFresh st now then (st, false) else ensureCacheFresh oracle st now

/-- Embedding of `findMatchingZone` (src/services/zoneService.js lines
94-189). Normalization failure returns null before any cache access; an
empty or missing snapshot after the refresh attempt returns null; the
two-pass scan runs otherwise. -/
def findMatchingZone (oracle : Nat → DbOutcome) (st : CacheState) (now : Nat)
    (postcode : Option String) : LookupResult :=
  match normalizePostcode postcode with
  | none => ⟨st, none, false, false⟩
  | some n =>
    let p := lookupState oracle st now
    match p.1.zonesCache with
    | none => ⟨p.1, none, p.2, true⟩
    | some zs =>
      if zs.isEmpty then ⟨p.1, none, p.2, true⟩
      else ⟨p.1, scanZones zs n, p.2, true⟩

/-! ## JavaScript value helpers -/

/-- Truthiness of a nullable string: null, undefined and the empty string
are falsy. -/
def strTruthy : Option String → Bool
  | none => false
  | some s => decide (s ≠ "")

/-- The JavaScript expression `a || b || null` over nullable strings. -/
def jsOr2 (a b : Option String) : Option String :=
  if strTruthy a then a else if strTruthy b then b else none

/-- The JavaScript expression `a || null` over nullable strings. -/
def jsNull (a : Option String) : Option String :=
  if strTruthy a then a else none

/-- The JavaScript expression `a || null` over nullable numbers: 0 is
falsy. -/
def jsNullNat (a : Option Nat) : Option Nat :=
  match a with
  | some n => if n = 0 then none else some n
  | none => none

/-- The JavaScript expression `a || d` for a nullable string with a
non-null default. -/
def jsOrD (a : Option String) (d : String) : String :=
  match a with
  | some s => if s = "" then d else s
  | none => d

/-- The JavaScript `trim`, removing leading and trailing whitespace
characters (the payload strings of interest are ASCII). -/
def jsTrim (s : String) : String :=
  String.mk
    (((s.data.dropWhile Char.isWhitespace).reverse.dropWhile
      Char.isWhitespace).reverse)

/-- Split a character list on a separator character, keeping empty
pieces, as the JavaScript `split` with a one-character separator does. -/
def splitChars (sep : Char) : List Char → List Char → List String
  | [], acc => [String.mk acc.reverse]
  | c :: cs, acc =>
    if c = sep then String.mk acc.reverse :: splitChars sep cs []
    else splitChars sep cs (c :: acc)

/-- The JavaScript `split` with a one-character separator. -/
def jsSplit (s : String) (sep : Char) : List String :=
  splitChars sep s.data []

/-- The JavaScript expression `a || d` for a nullable number with a
non-null default (0 is falsy). -/
def natOrD (a : Option Nat) (d : Nat) : Nat :=
  match a with
  | some n => if n = 0 then d else n
  | none => d

/-! ## Request payload model (the Shopify carrier callback body) -/

/-- Destination object of a rate request. Absent JSON keys are `none`. -/
structure Destination where
  postal_code : Option String := none
  country : Option String := none
  province : Option String := none
  state : Option String := none
  city : Option String := none
  name : Option String := none
  first_name : Option String := none
  last_name : Option String := none
  email : Option String := none
  phone : Option String := none
  address1 : Option String := none
  address2 : Option String := none
  company_name : Option String := none
  company : Option String := none
deriving Repr, DecidableEq

/-- Customer object sometimes present on the rate request. -/
structure Customer where
  first_name : Option String := none
  last_name : Option String := none
  email : Option String := none
  phone : Option String := none
deriving Repr, DecidableEq

/-- One line item of the rate request; `price` is in integer minor units
and `grams` is the weight. -/
structure Item where
  title : Option String := none
  quantity : Option Nat := none
  price : Option Nat := none
  grams : Option Nat := none
deriving Repr, DecidableEq

/-- The `rate` object of the callback body. -/
structure RateReq where
  destination : Option Destination := none
  customer : Option Customer := none
  items : Option (List Item) := none
  currency : Option String := none
deriving Repr, DecidableEq

/-- The request body. Besides the canonical `rate.destination.postal_code`
location, `extractPostcodeFromPayload` also probes a top-level destination
object and a top-level postcode field. -/
structure Payload where
  rate : Option RateReq := none
  destination : Option Destination := none
  postal_code : Option String := none
deriving Repr, DecidableEq

/-- Embedding of `extractPostcodeFromPayload` (src/utils/postcode.js lines
53-75): the first truthy postcode among the three probed locations,
otherwise null. The result is therefore never the empty string. -/
def extractPostcodeFromPayload (p : Payload) : Option String :=
  let c1 := p.rate.bind (fun r => r.destination) |>.bind (fun d => d.postal_code)
  if strTruthy c1 then c1
  else
    let c2 := p.destination.bind (fun d => d.postal_code)
    if strTruthy c2 then c2
    else
      let c3 := p.postal_code
      if strTruthy c3 then c3 else none

/-- The expression `req.body?.rate?.currency || "AUD"` used in every rate
entry the handler builds. -/
def currencyOf (p : Payload) : String :=
  jsOrD (p.rate.bind (fun r => r.currency)) "AUD"

/-- The expression `req.body?.rate?.items || []`. -/
def itemsOf (p : Payload) : List Item :=
  (p.rate.bind (fun r => r.items)).getD []

/-! ## Customer extraction and product formatting (rates handler) -/

/-- Customer information extracted by `extractCustomerInfo` in the rates
handler. -/
structure CustomerInfo where
  first_name : Option String := none
  last_name : Option String := none
  name : Option String := none
  email : Option String := none
  phone : Option String := none
  address : Option String := none
  address2 : Option String := none
  city : Option String := none
  province : Option String := none
  country : String := "AU"
  postal_code : Option String := none
  company : Option String := none
deriving Repr, DecidableEq

/-- Name splitting used when only `destination.name` is present: the first
space-separated part becomes the first name, the rest joined by single
spaces becomes the last name, with empty results coerced to null. -/
def splitName (name : String) : Option String × Option String :=
  let parts := jsSplit (jsTrim name) ' '
  (jsNull parts.head?,
    jsNull (some (" ".intercalate (parts.drop 1))))

/-- Embedding of `extractCustomerInfo` (current rates handler lines
36-66): customer fields fall back to destination fields; when no first
name is found but `destination.name` is truthy, both name parts are
recomputed by splitting it. -/
def extractCustomerInfo (p : Payload) : CustomerInfo :=
  let rate := p.rate.getD {}
  let d := rate.destination.getD {}
  let c := rate.customer.getD {}
  let fn0 := jsOr2 c.first_name d.first_name
  let ln0 := jsOr2 c.last_name d.last_name
  let split := if !strTruthy fn0 && strTruthy d.name
    then splitName (d.name.getD "") else (fn0, ln0)
  { first_name := split.1
    last_name := split.2
    name := jsNull d.name
    email := jsOr2 c.email d.email
    phone := jsOr2 d.phone c.phone
    address := jsNull d.address1
    address2 := jsNull d.address2
    city := jsNull d.city
    province := jsOr2 d.province d.state
    country := jsOrD d.country "AU"
    postal_code := jsNull d.postal_code
    company := jsOr2 d.company_name d.company }

/-- Exact decimal rendering of a minor-unit amount as `units.cc`. The
source renders `(price / 100).toFixed(2)` through binary floating point;
for the integer minor-unit amounts of the payload the two agree. -/
def formatMoney (cents : Nat) : String :=
  toString (cents / 100) ++ "." ++
    (if cents % 100 < 10 then "0" ++ toString (cents % 100)
     else toString (cents % 100))

/-- Embedding of `formatProductDetails` (rates handler lines 18-28): null
for a missing item list, otherwise each item rendered with defaulted
fields and joined by commas (the empty list gives the empty string). -/
def formatProductDetails : Option (List Item) → Option String
  | none => none
  | some items =>
    some (", ".intercalate (items.map (fun it =>
      toString (natOrD it.quantity 1) ++ "x " ++ jsOrD it.title "Product"
        ++ " - $" ++ formatMoney (it.price.getD 0))))

/-! ## Inquiry store model (src/services/inquiryService.js) -/

/-- One row of the `inquiries` table (see the schema in the repository:
nullable order references, customer/contact columns, a status enum
defaulting to new, and a creation timestamp). -/
structure Inquiry where
  id : Nat
  shop_order_id : Option Nat := none
  draft_order_id : Option Nat := none
  customer_name : Option String := none
  email : Option String := none
  phone : Option String := none
  address : Option String := none
  postcode : Option String := none
  product_details : Option String := none
  status : String := "new"
  created_at : Nat := 0
deriving Repr, DecidableEq

/-- The `inquiries` table together with its AUTO_INCREMENT counter. -/
structure Store where
  rows : List Inquiry := []
  nextId : Nat := 1
deriving Repr, DecidableEq

/-- Row filter of the `findRecentInquiry` query: same email, created
strictly inside the window (minutes before now), status new. The
comparison is over integers so an early `now` cannot underflow. -/
def inquiryMatches (e : String) (minutesAgo now : Nat) (r : Inquiry) : Bool :=
  decide (r.email = some e) &&
    decide ((now : Int) - (minutesAgo : Int) * 60000 < (r.created_at : Int)) &&
    decide (r.status = "new")

/-- The `ORDER BY created_at DESC LIMIT 1` of `findRecentInquiry`: a row
with maximal creation time (ties resolved deterministically towards the
front of the list; the SQL tie order is unspecified). -/
def mostRecent : List Inquiry → Option Inquiry
  | [] => none
  | r :: rs =>
    match mostRecent rs with
    | none => some r
    | some b => if b.created_at ≤ r.created_at then some r else some b

/-- Embedding of `findRecentInquiry` (src/services/inquiryService.js lines
14-33): a falsy email disables deduplication; otherwise the most recent
new-status row for that email inside the window. The unused session-hash
parameter of the source is dropped. -/
def findRecentInquiry (email : Option String) (minutesAgo now : Nat)
    (s : Store) : Option Inquiry :=
  if strTruthy email then
    mostRecent (s.rows.filter (inquiryMatches (email.getD "") minutesAgo now))
  else none

/-- A bind parameter as handed to the mysql2 driver: `undef` is the
JavaScript value `undefined`, which the driver refuses to bind; `nul` is
the JavaScript value `null`, bound as SQL NULL. -/
inductive SqlParam where
  | undef
  | nul
  | str (s : String)
  | num (n : Nat)
deriving Repr, DecidableEq

/-- True for the `undefined` bind parameter. -/
def SqlParam.isUndef : SqlParam → Bool
  | .undef => true
  | _ => false

/-- SQL NULL conversion of a nullable string argument. -/
def toParam : Option String → SqlParam
  | none => .nul
  | some s => .str s

/-- `COALESCE(?, column)` for a string column: a non-null parameter
replaces the stored value, a null parameter keeps it. -/
def coalesceStr (v : SqlParam) (old : Option String) : Option String :=
  match v with
  | .str s => some s
  | .num n => some (toString n)
  | .nul => old
  | .undef => old

/-- `COALESCE(?, column)` for a numeric column. -/
def coalesceNum (v : SqlParam) (old : Option Nat) : Option Nat :=
  match v with
  | .num n => some n
  | .nul => old
  | .str _ => old
  | .undef => old

/-- Embedding of `updateInquiry` (src/services/inquiryService.js lines
41-61). The UPDATE binds the address, postcode, draft-order-id and
product-details parameters; mysql2 `pool.execute` rejects the statement
with "Bind parameters must not contain undefined" when any of them is the
JavaScript value `undefined`, before anything reaches the store, and the
service rethrows that error. Otherwise each COALESCE keeps the old value
exactly when the parameter is SQL NULL. -/
def updateInquiry (s : Store) (inquiryId : Nat)
    (address postcode draftOrderId productDetails : SqlParam) :
    Except String Store :=
  if address.isUndef || postcode.isUndef || draftOrderId.isUndef ||
      productDetails.isUndef then
    .error "Bind parameters must not contain undefined"
  else
    .ok { s with rows := s.rows.map (fun r =>
      if r.id = inquiryId then
        { r with
          address := coalesceStr address r.address
          postcode := coalesceStr postcode r.postcode
          draft_order_id := coalesceNum draftOrderId r.draft_order_id
          product_details := coalesceStr productDetails r.product_details }
      else r) }

/-- Embedding of `createInquiry` (src/services/inquiryService.js lines
68-117): every nullable column goes through the `x || null` coercion of
the source, the row gets the next AUTO_INCREMENT id, status as passed,
and `created_at` is the insertion time. -/
def createInquiry (s : Store) (draftOrderId : Option Nat)
    (customerName email phone address postcode productDetails : Option String)
    (status : String) (now : Nat) : Store × Inquiry :=
  let row : Inquiry :=
    { id := s.nextId
      shop_order_id := none
      draft_order_id := jsNullNat draftOrderId
      customer_name := jsNull customerName
      email := jsNull email
      phone := jsNull phone
      address := jsNull address
      postcode := jsNull postcode
      product_details := jsNull productDetails
      status := status
      created_at := now }
  ({ rows := s.rows ++ [row], nextId := s.nextId + 1 }, row)

/-! ## Background draft-order/inquiry pipeline (current rates handler) -/

/-- Outcome of the external `createDraftOrder` call: the created draft
order id, or a failure (network or Shopify error), which the pipeline
catches and logs. -/
inductive DraftOutcome where
  | ok (id : Nat)
  | fail
deriving Repr, DecidableEq

/-- Data captured synchronously by the handler for the background task:
the extracted customer info, the raw item list, the formatted product
details, and the raw (truthy) postcode string. -/
structure PipelineJob where
  ci : CustomerInfo
  items : List Item
  productDetails : Option String
  postcode : String
deriving Repr, DecidableEq

/-- The composite address written by the pipeline, from handler lines such
as `address ? [address, city, province, postcode].trim() : null` (comma
separated, falsy city/province rendered empty, the whole string trimmed). -/
def mkFullAddress (ci : CustomerInfo) (postcode : String) : Option String :=
  if strTruthy ci.address then
    some (jsTrim (ci.address.getD "" ++ ", " ++ jsOrD ci.city "" ++ ", "
      ++ jsOrD ci.province "" ++ " " ++ postcode))
  else none

/-- Customer display name used on inquiry creation: the full name when
truthy, else first and last joined when both truthy, else the first name,
else the literal Customer. -/
def mkCustomerName (ci : CustomerInfo) : String :=
  match jsNull ci.name with
  | some n => n
  | none =>
    if strTruthy ci.first_name && strTruthy ci.last_name then
      jsTrim ((ci.first_name.getD "") ++ " " ++ (ci.last_name.getD ""))
    else jsOrD ci.first_name "Customer"

/-- Observable events of one request run, in program order. -/
inductive Ev where
  | cacheReload
  | responded
  | dedupLookup
  | draftOrderCall
  | inquiryWrite
deriving Repr, DecidableEq

/-- Result of one background pipeline execution: the store afterwards, how
many external draft-order creations were attempted, the created row if
any, the update error if the dedup update failed, and the pipeline event
list. -/
structure PipelineResult where
  store : Store
  draftOrderCalls : Nat
  createdRow : Option Inquiry
  updateErr : Option String
  updatedId : Option Nat
  events : List Ev
deriving Repr, DecidableEq

/-- Embedding of the `setImmediate` background block of the current rates
handler (lines 186-280). A recent inquiry for the same email is updated in
place (no draft-order call); the update passes no `draft_order_id` key, so
`updateInquiry` destructures the JavaScript value `undefined` for that
bind parameter. Without a recent inquiry, the draft order is attempted
(its failure only clears the id) and a new row with status new is
inserted. Insert failures are caught and logged in the source; the store
insert itself is modelled as succeeding. -/
def runPipeline (job : PipelineJob) (s : Store) (now : Nat)
    (draftO : DraftOutcome) : PipelineResult :=
  match findRecentInquiry job.ci.email 60 now s with
  | some existing =>
    match updateInquiry s existing.id (toParam (mkFullAddress job.ci job.postcode))
        (.str job.postcode) .undef (toParam job.productDetails) with
    | .ok s2 => ⟨s2, 0, none, none, some existing.id, [.dedupLookup, .inquiryWrite]⟩
    | .error e => ⟨s, 0, none, some e, none, [.dedupLookup, .inquiryWrite]⟩
  | none =>
    let draftId : Option Nat := match draftO with | .ok i => some i | .fail => none
    let res := createInquiry s draftId (some (mkCustomerName job.ci)) job.ci.email
      job.ci.phone (mkFullAddress job.ci job.postcode) (some job.postcode)
      job.productDetails "new" now
    ⟨res.1, 1, some res.2, none, none, [.dedupLookup, .draftOrderCall, .inquiryWrite]⟩

/-! ## The carrier rates handler (current src/routes/rates.js) -/

/-- One entry of the `rates` array in the response body. -/
structure RateEntry where
  service_name : String
  service_code : String
  total_price : String
  currency : String
  description : String
deriving Repr, DecidableEq

/-- The flat shipping rate in cents, `STANDARD_RATE = 5900`. -/
def STANDARD_RATE : Nat := 5900

/-- Response sent when no postcode is found in the payload. -/
def missingPostcodeRate (p : Payload) : RateEntry :=
  ⟨"Inquiry Required — We will contact you", "INQUIRY", "0", currencyOf p,
    "Postcode information is missing. Please contact us for shipping."⟩

/-- Response sent when the postcode matches a warehouse zone. -/
def matchedRate (p : Payload) (m : ZoneMatch) : RateEntry :=
  ⟨"Standard Delivery", "ZONE_" ++ toString m.warehouseId,
    toString STANDARD_RATE, currencyOf p,
    "Delivery from " ++ m.warehouseName⟩

/-- Response sent when no zone matches and the inquiry option is shown. -/
def noMatchRate (p : Payload) : RateEntry :=
  ⟨"Inquiry Required — We will contact you", "INQUIRY", "0", currencyOf p,
    "No automated rate for this postcode; store will contact you to finalize shipping. If delivery is possible, you will receive your order. Please note: Your inquiry has been submitted and our team will review your delivery address. We will contact you via email or phone within 24-48 hours to confirm shipping availability and provide a custom shipping quote if delivery is possible."⟩

/-- Response sent by the catch-all error boundary of the handler, with an
explicit status 200. -/
def errorFallbackRate (p : Payload) : RateEntry :=
  ⟨"Inquiry Required — We will contact you", "INQUIRY", "0", currencyOf p,
    "Unable to calculate shipping rate. Please contact us for assistance."⟩

/-- Result of the synchronous part of the handler: HTTP status, response
rates, cache state afterwards, whether the zone cache logic was reached,
whether it reloaded, and the enqueued background job if any. -/
structure HandlerResult where
  status : Nat
  rates : List RateEntry
  cacheState : CacheState
  cacheAccessed : Bool
  didReload : Bool
  job : Option PipelineJob
deriving Repr, DecidableEq

/-- Embedding of the synchronous path of `handleCarrierRates` (current
rates handler lines 72-305). The `fault` flag injects an unexpected
exception inside the try block before the response is produced; the catch
boundary (lines 282-304) turns it into the status-200 fallback response.
A missing (falsy) postcode short-circuits to the missing-postcode
response; a zone match returns the flat rate; otherwise the response is
the inquiry option and the background job is enqueued, not executed. -/
def handleCarrierRates (p : Payload) (cs : CacheState) (cacheO : Nat → DbOutcome)
    (now : Nat) (fault : Bool) : HandlerResult :=
  if fault then ⟨200, [errorFallbackRate p], cs, false, false, none⟩
  else
    match extractPostcodeFromPayload p with
    | none => ⟨200, [missingPostcodeRate p], cs, false, false, none⟩
    | some pc =>
      let lr := findMatchingZone cacheO cs now (some pc)
      match lr.result with
      | some m => ⟨200, [matchedRate p m], lr.state, lr.cacheAccessed, lr.didReload, none⟩
      | none =>
        ⟨200, [noMatchRate p], lr.state, lr.cacheAccessed, lr.didReload,
          some ⟨extractCustomerInfo p, itemsOf p,
            formatProductDetails (some (itemsOf p)), pc⟩⟩

/-- Result of a full request run: the response as sent, the states of the
cache and the store afterwards, the pipeline execution if one ran, and
the ordered event trace. -/
structure RunResult where
  status : Nat
  rates : List RateEntry
  cacheState : CacheState
  store : Store
  pipeline : Option PipelineResult
  events : List Ev
deriving Repr, DecidableEq

/-- A full request: the synchronous handler runs first and sends its
response (the `responded` event); the enqueued background job, if any,
runs afterwards against the store and the external gateway. This mirrors
the source order: `res.json(...)` is executed strictly before the
`setImmediate` callback body can run. -/
def runRateRequest (p : Payload) (cs : CacheState) (cacheO : Nat → DbOutcome)
    (s : Store) (draftO : DraftOutcome) (now : Nat) (fault : Bool) : RunResult :=
  let h := handleCarrierRates p cs cacheO now fault
  let pre : List Ev := if h.didReload then [.cacheReload] else []
  match h.job with
  | none => ⟨h.status, h.rates, h.cacheState, s, none, pre ++ [.responded]⟩
  | some job =>
    let pr := runPipeline job s now draftO
    ⟨h.status, h.rates, h.cacheState, pr.store, some pr,
      pre ++ .responded :: pr.events⟩

/-! ## Concrete fixtures for witnesses and counterexamples -/

/-- Exact zone 3005 of warehouse 7. -/
def zoneA : Zone := ⟨1, 7, "3005", false, "Warehouse A"⟩

/-- Pattern zone 30 of warehouse 9; its pattern is a string prefix of
3005 as well. -/
def zoneB : Zone := ⟨2, 9, "30", true, "Warehouse B"⟩

/-- A freshly loaded cache holding both zones. -/
def csW : CacheState := ⟨some [zoneA, zoneB], some 1000000⟩

/-- A database oracle whose every attempt succeeds with both zones. -/
def okOracleW : Nat → DbOutcome := fun _ => DbOutcome.ok [zoneA, zoneB]

/-- A rate request from Jane with a given street address and postcode. -/
def reqJane (addr pc : String) : Payload :=
  { rate := some
      { destination := some
          { postal_code := some pc
            country := some "AU"
            province := some "NSW"
            city := some "Sydney"
            name := some "Jane Doe"
            email := some "jane@example.com"
            phone := some "0400000000"
            address1 := some addr }
        items := some [{ title := some "Sofa", quantity := some 2,
                         price := some 349900, grams := some 40000 }]
        currency := some "AUD" } }

/-- A rate request whose postcode field is present but not normalizable. -/
def reqABC : Payload :=
  { rate := some { destination := some { postal_code := some "ABC" },
                   currency := some "AUD" } }

/-- First no-match request of the dedup scenario, processed at t = 1000000
against an empty store, draft order 42 created. -/
def run1 : RunResult :=
  runRateRequest (reqJane "1 Old St" "2701") csW okOracleW {}
    (DraftOutcome.ok 42) 1000000 false

/-- Second no-match request of the same customer four minutes later with
a new address and postcode, processed against the store left by the
first. -/
def run2 : RunResult :=
  runRateRequest (reqJane "99 New St" "2702") csW okOracleW run1.store
    (DraftOutcome.ok 43) 1240000 false

/-- Replace only the line-item list of a payload, leaving destination,
customer and currency untouched; used to state independence of the flat
rate from the items. -/
def withItems (p : Payload) (its : Option (List Item)) : Payload :=
  { p with rate :=
      match p.rate with
      | some r => some { r with items := its }
      | none => none }

/-- Modelled interleaving of two concurrent `ensureCacheFresh` calls on
the Node event loop. In the source the staleness check (src/services/
zoneService.js line 75) is synchronous, and the module variables
`zonesCache`/`cacheTimestamp` are assigned only when the awaited query
inside `loadZonesCache` resolves; there is no single-flight guard. A
second caller whose staleness check runs while the first reload is still
in flight therefore reads the original, not-yet-updated state, and a
positive check makes that caller start its own `loadZonesCache`. The
function returns the number of store reloads the two calls trigger in
that interleaving: one per caller whose check against the shared initial
state reports stale. -/
def ensureCacheFreshConcurrentReloads (st0 : CacheState) (t1 t2 : Nat) : Nat :=
  (if cacheIsStale st0 t1 then 1 else 0) + (if cacheIsStale st0 t2 then 1 else 0)

/-! ## Helper lemmas -/

/-- Normalization output is idempotent: the result of a successful
normalization normalizes to itself. -/
lemma normalizePostcode_norm {rawp n : String}
    (h : normalizePostcode (some rawp) = some n) :
    normalizePostcode (some n) = some n := by
  unfold normalizePostcode at h ⊢
  by_cases hr : rawp = ""
  · simp [hr] at h
  · simp only [hr, if_false] at h
    by_cases hl : (stripNonDigits rawp).length = 4
    · simp only [hl, if_true] at h
      cases h
      have hid : stripNonDigits (stripNonDigits rawp) = stripNonDigits rawp := by
        unfold stripNonDigits
        simp [List.filter_filter]
      have hne : stripNonDigits rawp ≠ "" := by
        intro he
        rw [he] at hl
        simp [String.length] at hl
      simp [hne, hid, hl]
    · simp [hl] at h

/-- A normalized postcode matches the exact zone pattern given by its own
text. -/
lemma matchesZone_self {rawp n : String}
    (h : normalizePostcode (some rawp) = some n) :
    matchesZone (some n) n false = true := by
  have hn := normalizePostcode_norm h
  unfold matchesZone
  rw [hn]
  simp

/-- The first pass finds an exact-matching zone whenever the snapshot
holds one. -/
lemma findExact_of_mem {L : List Zone} {n : String}
    (hex : ∃ z ∈ L, z.isPfx = false ∧ matchesZone (some n) z.postcode false = true) :
    ∃ z, findExact L n = some z ∧ z ∈ L ∧ z.isPfx = false ∧
      matchesZone (some n) z.postcode false = true := by
  induction L with
  | nil => simp at hex
  | cons a as ih =>
    by_cases ha : (!a.isPfx && matchesZone (some n) a.postcode false) = true
    · refine ⟨a, by simp [findExact, ha], by simp, ?_, ?_⟩
      · have := (Bool.and_eq_true _ _).mp ha
        simpa using this.1
      · exact ((Bool.and_eq_true _ _).mp ha).2
    · obtain ⟨z, hz, h1, h2⟩ := hex
      rcases List.mem_cons.mp hz with rfl | hzas
      · exact absurd (by simp [h1, h2]) ha
      · obtain ⟨z2, e2, m2, p1, p2⟩ := ih ⟨z, hzas, h1, h2⟩
        exact ⟨z2, by simp [findExact, ha, e2], List.mem_cons_of_mem _ m2, p1, p2⟩

/-! ## Claim theorems -/

/-- C2: for every cached snapshot and every postcode normalizing to a
4-digit string equal to the pattern of an exact (non-pattern) zone of the
snapshot, the two-pass scan returns an exact zone with matchType exact —
never a pattern zone — and, when the exact matching zone is unique, that
very zone, regardless of pattern zones whose pattern is a string prefix
of the same postcode. -/
theorem exact_match_takes_precedence (cache : List Zone) (rawp n : String)
    (z : Zone) (hn : normalizePostcode (some rawp) = some n)
    (hz : z ∈ cache) (hzex : z.isPfx = false) (hzpat : z.postcode = n) :
    (∃ z2, z2 ∈ cache ∧ z2.isPfx = false ∧
        matchesZone (some n) z2.postcode false = true ∧
        scanZones cache n = some ⟨z2.id, z2.warehouseId, z2.warehouseName, "exact"⟩) ∧
      ((∀ z3, z3 ∈ cache → z3.isPfx = false →
          matchesZone (some n) z3.postcode false = true → z3 = z) →
        scanZones cache n = some ⟨z.id, z.warehouseId, z.warehouseName, "exact"⟩) := by
  have hm : matchesZone (some n) z.postcode false = true := by
    rw [hzpat]
    exact matchesZone_self hn
  obtain ⟨z2, he, hmem, hp, hq⟩ := findExact_of_mem ⟨z, hz, hzex, hm⟩
  refine ⟨⟨z2, hmem, hp, hq, by simp [scanZones, he]⟩, ?_⟩
  intro huniq
  have hzz : z2 = z := huniq z2 hmem hp hq
  rw [hzz] at he
  simp [scanZones, he]

/-- C2 witness: postcode 3005 with the pattern zone 30 of warehouse B
listed first still resolves to the exact zone 3005 of warehouse A. -/
theorem exact_match_takes_precedence_witness :
    scanZones [zoneB, zoneA] "3005" = some ⟨1, 7, "Warehouse A", "exact"⟩ :=
  (exact_match_takes_precedence [zoneB, zoneA] "3005" "3005" zoneA rfl
    (by simp) rfl rfl).2 (by decide)

/-- Every run of the retry loop whose attempts all fail ends in the
terminal failure path. -/
lemma loadZonesFrom_allErr (oracle : Nat → DbOutcome) (retries now : Nat)
    (st : CacheState)
    (hfail : ∀ i, i < retries → (oracle i).isErr = true) :
    ∀ k attempt, retries - attempt ≤ k → attempt < retries →
      loadZonesFrom oracle retries now st attempt = loadFailState st now := by
  intro k
  induction k with
  | zero =>
    intro attempt hk hlt
    omega
  | succ k ih =>
    intro attempt hk hlt
    have herr := hfail attempt hlt
    rw [loadZonesFrom]
    rw [dif_pos hlt]
    cases ho : oracle attempt with
    | ok zs =>
      rw [ho] at herr
      simp [DbOutcome.isErr] at herr
    | err c =>
      dsimp only
      by_cases h2 : attempt < retries - 1 ∧ c = true
      · rw [dif_pos h2]
        exact ih (attempt + 1) (by omega) (by omega)
      · rw [dif_neg h2]

/-- C5: a reload whose store attempts all fail leaves a previously loaded
non-empty snapshot (and its timestamp) fully unchanged; the explicit
empty snapshot is installed only from the never-loaded state, or
re-installed over an already empty one. -/
theorem failed_reload_preserves_snapshot (oracle : Nat → DbOutcome)
    (retries now : Nat) (st : CacheState) (hr : 0 < retries)
    (hfail : ∀ i, i < retries → (oracle i).isErr = true) :
    (∀ zs, st.zonesCache = some zs → zs ≠ [] →
        loadZonesCache oracle retries now st = (st, []))
      ∧ (st.zonesCache = none →
        loadZonesCache oracle retries now st = (⟨some [], some now⟩, []))
      ∧ (st.zonesCache = some [] →
        loadZonesCache oracle retries now st = (⟨some [], some now⟩, [])) := by
  have h := loadZonesFrom_allErr oracle retries now st hfail retries 0 (by omega) hr
  refine ⟨?_, ?_, ?_⟩
  · intro zs hzs hne
    unfold loadZonesCache
    rw [h]
    unfold loadFailState
    rw [hzs]
    simp [List.isEmpty_iff, hne]
  · intro hnone
    unfold loadZonesCache
    rw [h]
    unfold loadFailState
    rw [hnone]
  · intro hemp
    unfold loadZonesCache
    rw [h]
    unfold loadFailState
    rw [hemp]
    simp

/-- C5 witness: three connection failures leave the single-zone snapshot
of warehouse A untouched. -/
theorem failed_reload_preserves_snapshot_witness :
    loadZonesCache (fun _ => DbOutcome.err true) 3 5000 ⟨some [zoneA], some 100⟩
      = (⟨some [zoneA], some 100⟩, []) :=
  (failed_reload_preserves_snapshot (fun _ => DbOutcome.err true) 3 5000
    ⟨some [zoneA], some 100⟩ (by omega) (fun i _ => rfl)).1 [zoneA] rfl (by simp)

/-- C9 amended: two SEQUENTIAL refresh calls in rapid succession trigger
at most one store reload; after a first call whose reload succeeds, the
second call (and by the same argument every further call inside the TTL
window) observes a fresh snapshot and performs no store query, leaving
the state unchanged. The concurrent-collapse clause of the original
claim is dropped: the counterexample below shows that refresh signals
checked while a reload is still in flight each trigger their own
reload. -/
theorem ensureCacheFresh_twice_one_reload (oracle oracle2 : Nat → DbOutcome)
    (st0 : CacheState) (t1 t2 : Nat) (zs : List Zone)
    (h1 : 0 < t1) (h3 : t2 - t1 ≤ CACHE_TTL) (hok : oracle 0 = DbOutcome.ok zs) :
    ((if (ensureCacheFresh oracle st0 t1).2 then 1 else 0)
        + (if (ensureCacheFresh oracle2 (ensureCacheFresh oracle st0 t1).1 t2).2
            then 1 else 0) ≤ 1)
      ∧ ((ensureCacheFresh oracle st0 t1).2 = true →
        ensureCacheFresh oracle2 (ensureCacheFresh oracle st0 t1).1 t2
          = ((ensureCacheFresh oracle st0 t1).1, false)) := by
  by_cases hstale : cacheIsStale st0 t1
  · have hload : loadZonesCache oracle 3 t1 st0 = (⟨some zs, some t1⟩, zs) := by
      unfold loadZonesCache
      rw [loadZonesFrom]
      simp [hok]
    have h1st : ensureCacheFresh oracle st0 t1 = (⟨some zs, some t1⟩, true) := by
      unfold ensureCacheFresh
      rw [if_pos hstale, hload]
    have hfr : cacheIsStale ⟨some zs, some t1⟩ t2 = false := by
      have hc : CACHE_TTL = 300000 := rfl
      rw [hc] at h3
      have ht1 : t1 ≠ 0 := by omega
      simp [cacheIsStale, tsTruthy, ht1, CACHE_TTL]
      omega
    have h2nd : ensureCacheFresh oracle2 ⟨some zs, some t1⟩ t2
        = (⟨some zs, some t1⟩, false) := by
      unfold ensureCacheFresh
      rw [hfr]
      simp
    rw [h1st]
    simp only [h2nd]
    simp
  · have h1st : ensureCacheFresh oracle st0 t1 = (st0, false) := by
      unfold ensureCacheFresh
      rw [if_neg hstale]
    rw [h1st]
    refine ⟨?_, by simp⟩
    cases h2 : (ensureCacheFresh oracle2 (st0, false).1 t2).2 <;> simp [h2]

/-- C9 counterexample: from the never-loaded state, two concurrent
refresh signals one millisecond apart (well inside one TTL window), the
second checked while the reload started by the first is still in flight,
trigger TWO store reloads — they do not collapse into the single
in-flight reload, because the source has no single-flight guard and the
shared state is only assigned when a reload query resolves. -/
theorem concurrent_refresh_does_not_collapse :
    cacheIsStale ⟨none, none⟩ 1 = true
      ∧ cacheIsStale ⟨none, none⟩ 2 = true
      ∧ (2 : Nat) - 1 ≤ CACHE_TTL
      ∧ ensureCacheFreshConcurrentReloads ⟨none, none⟩ 1 2 = 2 := by
  decide

/-- C9 witness: from the never-loaded state, a refresh at t = 1 reloads
and a second refresh at t = 2 does not. -/
theorem ensureCacheFresh_twice_one_reload_witness :
    ensureCacheFresh okOracleW (ensureCacheFresh okOracleW ⟨none, none⟩ 1).1 2
      = ((ensureCacheFresh okOracleW ⟨none, none⟩ 1).1, false) :=
  (ensureCacheFresh_twice_one_reload okOracleW okOracleW ⟨none, none⟩ 1 2
    [zoneA, zoneB] (by omega) (by decide) rfl).2 (by decide)

/-- Changing the items of a payload does not change the extracted
postcode. -/
lemma extract_withItems (p : Payload) (its : Option (List Item)) :
    extractPostcodeFromPayload (withItems p its) = extractPostcodeFromPayload p := by
  rcases hr : p.rate with _ | r <;>
    simp [withItems, extractPostcodeFromPayload, hr]

/-- Changing the items of a payload does not change the response
currency. -/
lemma currency_withItems (p : Payload) (its : Option (List Item)) :
    currencyOf (withItems p its) = currencyOf p := by
  rcases hr : p.rate with _ | r <;>
    simp [withItems, currencyOf, hr]

/-- C4: every rate request gets HTTP status 200, and an unexpected
exception inside the synchronous handler path is converted at the catch
boundary into the INQUIRY fallback rate with total price 0 — no error
status is ever surfaced. -/
theorem handler_error_boundary (p : Payload) (cs : CacheState)
    (cacheO : Nat → DbOutcome) (now : Nat) (fault : Bool) :
    (handleCarrierRates p cs cacheO now fault).status = 200
      ∧ (fault = true →
        (handleCarrierRates p cs cacheO now fault).rates = [errorFallbackRate p]
          ∧ (errorFallbackRate p).service_code = "INQUIRY"
          ∧ (errorFallbackRate p).total_price = "0") := by
  cases fault
  · refine ⟨?_, by simp⟩
    unfold handleCarrierRates
    rcases hpc : extractPostcodeFromPayload p with _ | pc
    · simp
    · simp only [Bool.false_eq_true, if_false]
      rcases hm : (findMatchingZone cacheO cs now (some pc)).result with _ | m <;>
        simp [hm]
  · exact ⟨rfl, fun _ => ⟨rfl, rfl, rfl⟩⟩

/-- C4 witness: a faulted request over the fixture cache still answers
200 with the INQUIRY fallback. -/
theorem handler_error_boundary_witness :
    (handleCarrierRates (reqJane "1 Old St" "3005") csW okOracleW 1000000 true).status = 200
      ∧ (handleCarrierRates (reqJane "1 Old St" "3005") csW okOracleW 1000000 true).rates
        = [errorFallbackRate (reqJane "1 Old St" "3005")]
      ∧ (errorFallbackRate (reqJane "1 Old St" "3005")).service_code = "INQUIRY"
      ∧ (errorFallbackRate (reqJane "1 Old St" "3005")).total_price = "0" :=
  let h := handler_error_boundary (reqJane "1 Old St" "3005") csW okOracleW 1000000 true
  ⟨h.1, h.2 rfl⟩

/-- C8: every response carries exactly one rate entry, and that entry is
either a ZONE_ warehouse code with the flat price or the INQUIRY code
with total price 0 and a non-empty human-readable description. -/
theorem handler_single_rate_entry (p : Payload) (cs : CacheState)
    (cacheO : Nat → DbOutcome) (now : Nat) (fault : Bool) :
    ∃ e, (handleCarrierRates p cs cacheO now fault).rates = [e]
      ∧ ((∃ wid : Nat, e.service_code = "ZONE_" ++ toString wid
            ∧ e.total_price = toString STANDARD_RATE)
        ∨ (e.service_code = "INQUIRY" ∧ e.total_price = "0"
            ∧ e.description ≠ "")) := by
  cases fault
  · unfold handleCarrierRates
    rcases hpc : extractPostcodeFromPayload p with _ | pc
    · exact ⟨missingPostcodeRate p, by simp, Or.inr ⟨rfl, rfl, by simp [missingPostcodeRate]⟩⟩
    · simp only [Bool.false_eq_true, if_false]
      rcases hm : (findMatchingZone cacheO cs now (some pc)).result with _ | m
      · refine ⟨noMatchRate p, by simp [hm], Or.inr ⟨rfl, rfl, by simp [noMatchRate]⟩⟩
      · exact ⟨matchedRate p m, by simp [hm], Or.inl ⟨m.warehouseId, rfl, rfl⟩⟩
  · exact ⟨errorFallbackRate p, rfl, Or.inr ⟨rfl, rfl, by simp [errorFallbackRate]⟩⟩

/-- C8 witness: instance of the single-entry shape at a concrete matched
request. -/
theorem handler_single_rate_entry_witness :
    ∃ e, (handleCarrierRates (reqJane "1 Old St" "3005") csW okOracleW 1000000 false).rates = [e]
      ∧ ((∃ wid : Nat, e.service_code = "ZONE_" ++ toString wid
            ∧ e.total_price = toString STANDARD_RATE)
        ∨ (e.service_code = "INQUIRY" ∧ e.total_price = "0"
            ∧ e.description ≠ "")) :=
  handler_single_rate_entry (reqJane "1 Old St" "3005") csW okOracleW 1000000 false

/-- C10: whenever the postcode matches a zone, the returned total price is
the constant string 5900 regardless of the line items (and of everything
but the matched warehouse identity, which only enters the service code
and description), and the currency merely echoes the request currency
with the AUD default. -/
theorem matched_flat_price_constant (p : Payload) (cs : CacheState)
    (cacheO : Nat → DbOutcome) (now : Nat) (pc : String) (m : ZoneMatch)
    (hpc : extractPostcodeFromPayload p = some pc)
    (hm : (findMatchingZone cacheO cs now (some pc)).result = some m) :
    (handleCarrierRates p cs cacheO now false).rates = [matchedRate p m]
      ∧ (matchedRate p m).total_price = "5900"
      ∧ (matchedRate p m).currency = currencyOf p
      ∧ (∀ its, (handleCarrierRates (withItems p its) cs cacheO now false).rates
          = [matchedRate p m]) := by
  have hmain : (handleCarrierRates p cs cacheO now false).rates = [matchedRate p m] := by
    unfold handleCarrierRates
    simp only [Bool.false_eq_true, if_false, hpc]
    simp [hm]
  refine ⟨hmain, rfl, rfl, ?_⟩
  intro its
  have hpc2 : extractPostcodeFromPayload (withItems p its) = some pc := by
    rw [extract_withItems, hpc]
  have hmr : matchedRate (withItems p its) m = matchedRate p m := by
    unfold matchedRate
    rw [currency_withItems]
  unfold handleCarrierRates
  simp only [Bool.false_eq_true, if_false, hpc2]
  simp [hm, hmr]

/-- C10 witness: the concrete matched request pays 5900 regardless of its
items. -/
theorem matched_flat_price_constant_witness :
    (handleCarrierRates (reqJane "1 Old St" "3005") csW okOracleW 1000000 false).rates
        = [matchedRate (reqJane "1 Old St" "3005") ⟨1, 7, "Warehouse A", "exact"⟩]
      ∧ (matchedRate (reqJane "1 Old St" "3005") ⟨1, 7, "Warehouse A", "exact"⟩).total_price
        = "5900" :=
  let h := matched_flat_price_constant (reqJane "1 Old St" "3005") csW okOracleW
    1000000 "3005" ⟨1, 7, "Warehouse A", "exact"⟩ rfl rfl
  ⟨h.1, h.2.1⟩

/-- C7 counterexample: the request whose postcode field holds the
non-normalizable string ABC is present (truthy), is not normalizable to 4
digits, does not touch the zone cache — and still enqueues the background
inquiry/draft-order pipeline, contrary to the claim that no pipeline work
is triggered for such requests. -/
theorem invalid_postcode_still_enqueues_pipeline :
    extractPostcodeFromPayload reqABC = some "ABC"
      ∧ normalizePostcode (some "ABC") = none
      ∧ (handleCarrierRates reqABC csW okOracleW 1000000 false).cacheAccessed = false
      ∧ (handleCarrierRates reqABC csW okOracleW 1000000 false).didReload = false
      ∧ (handleCarrierRates reqABC csW okOracleW 1000000 false).job
        = some ⟨extractCustomerInfo reqABC, [], some "", "ABC"⟩ := by
  refine ⟨rfl, by decide, rfl, rfl, rfl⟩

/-- C7 amended: a request whose postcode is absent, or present but not
normalizable, is answered with status 200 and the single INQUIRY rate
with price 0, without any cache read or reload and with the cache state
unchanged; when the postcode is absent no pipeline work is triggered
either and the missing-postcode description is used (a present but
invalid postcode does enqueue the pipeline, as the counterexample
shows). -/
theorem invalid_or_missing_postcode_no_cache (p : Payload) (cs : CacheState)
    (cacheO : Nat → DbOutcome) (now : Nat) (fault : Bool)
    (hinv : normalizePostcode (extractPostcodeFromPayload p) = none) :
    (handleCarrierRates p cs cacheO now fault).status = 200
      ∧ (handleCarrierRates p cs cacheO now fault).cacheAccessed = false
      ∧ (handleCarrierRates p cs cacheO now fault).didReload = false
      ∧ (handleCarrierRates p cs cacheO now fault).cacheState = cs
      ∧ (∃ e, (handleCarrierRates p cs cacheO now fault).rates = [e]
          ∧ e.service_code = "INQUIRY" ∧ e.total_price = "0")
      ∧ (extractPostcodeFromPayload p = none → fault = false →
        (handleCarrierRates p cs cacheO now fault).job = none
          ∧ (handleCarrierRates p cs cacheO now fault).rates
            = [missingPostcodeRate p]) := by
  cases fault
  · rcases hpc : extractPostcodeFromPayload p with _ | pc
    · have hh : handleCarrierRates p cs cacheO now false
          = ⟨200, [missingPostcodeRate p], cs, false, false, none⟩ := by
        unfold handleCarrierRates
        simp only [Bool.false_eq_true, if_false, hpc]
      rw [hh]
      exact ⟨rfl, rfl, rfl, rfl, ⟨missingPostcodeRate p, rfl, rfl, rfl⟩,
        fun _ _ => ⟨rfl, rfl⟩⟩
    · rw [hpc] at hinv
      have hfz : findMatchingZone cacheO cs now (some pc) = ⟨cs, none, false, false⟩ := by
        unfold findMatchingZone
        rw [hinv]
      have hh : handleCarrierRates p cs cacheO now false
          = ⟨200, [noMatchRate p], cs, false, false,
              some ⟨extractCustomerInfo p, itemsOf p,
                formatProductDetails (some (itemsOf p)), pc⟩⟩ := by
        unfold handleCarrierRates
        simp only [Bool.false_eq_true, if_false, hpc, hfz]
      rw [hh]
      exact ⟨rfl, rfl, rfl, rfl, ⟨noMatchRate p, rfl, rfl, rfl⟩,
        fun h => by simp [hpc] at h⟩
  · exact ⟨rfl, rfl, rfl, rfl, ⟨errorFallbackRate p, rfl, rfl, rfl⟩,
      fun _ h => by simp at h⟩

/-- C7 amended witness: the missing-destination payload gets the
missing-postcode INQUIRY fallback with no cache access and no pipeline. -/
theorem invalid_or_missing_postcode_no_cache_witness :
    (handleCarrierRates {} csW okOracleW 1000000 false).status = 200
      ∧ (handleCarrierRates {} csW okOracleW 1000000 false).cacheAccessed = false
      ∧ (handleCarrierRates {} csW okOracleW 1000000 false).job = none
      ∧ (handleCarrierRates {} csW okOracleW 1000000 false).rates
        = [missingPostcodeRate {}] :=
  let h := invalid_or_missing_postcode_no_cache {} csW okOracleW 1000000 false rfl
  ⟨h.1, h.2.1, (h.2.2.2.2.2 rfl rfl).1, (h.2.2.2.2.2 rfl rfl).2⟩

/-- C1: the dedup scenario evaluated on the code. Two no-match requests
from the same non-null email, four minutes apart and with the first row
still in status new, leave exactly one Inquiry row and create no second
draft order — but the update of the dedup branch is rejected by the
driver (the handler passes no draft-order-id key, so an `undefined` bind
parameter reaches mysql2) and the surviving row keeps the FIRST request
postcode, address and product summary instead of the second request
values the claim (and the spec) require. -/
theorem dedup_update_rejected_bind_undefined :
    run1.store.rows.map Inquiry.email = [some "jane@example.com"]
      ∧ run1.store.rows.map Inquiry.status = ["new"]
      ∧ run1.pipeline.map PipelineResult.draftOrderCalls = some 1
      ∧ (1240000 : Nat) - 1000000 < 60 * 60000
      ∧ run2.store = run1.store
      ∧ run2.store.rows.length = 1
      ∧ run2.pipeline.map PipelineResult.draftOrderCalls = some 0
      ∧ run2.pipeline.map PipelineResult.updateErr
        = some (some "Bind parameters must not contain undefined")
      ∧ run2.store.rows.map Inquiry.postcode = [some "2701"]
      ∧ run2.store.rows.map Inquiry.address = [some "1 Old St, Sydney, NSW 2701"]
      ∧ mkFullAddress (extractCustomerInfo (reqJane "99 New St" "2702")) "2702"
        = some "99 New St, Sydney, NSW 2702" := by
  decide

/-- C6: when the pipeline runs for a no-match request without a recent
duplicate and the external draft-order call fails, the failure is
absorbed and the Inquiry row is still appended with status new and a null
draft-order reference, the draft-order call having been attempted exactly
once. -/
theorem draft_failure_inquiry_still_persisted (p : Payload) (cs : CacheState)
    (cacheO : Nat → DbOutcome) (nowReq : Nat) (job : PipelineJob)
    (s : Store) (now : Nat)
    (_hjob : (handleCarrierRates p cs cacheO nowReq false).job = some job)
    (hnone : findRecentInquiry job.ci.email 60 now s = none) :
    (runPipeline job s now DraftOutcome.fail).draftOrderCalls = 1
      ∧ ∃ row, (runPipeline job s now DraftOutcome.fail).store.rows = s.rows ++ [row]
          ∧ row.status = "new" ∧ row.draft_order_id = none := by
  unfold runPipeline
  rw [hnone]
  refine ⟨rfl, ?_⟩
  exact ⟨_, rfl, rfl, rfl⟩

/-- C6 witness: the first Jane request against an empty store with a
failing gateway still persists a new-status row with no draft order id. -/
theorem draft_failure_inquiry_still_persisted_witness :
    (runPipeline ⟨extractCustomerInfo (reqJane "1 Old St" "2701"),
        itemsOf (reqJane "1 Old St" "2701"),
        formatProductDetails (some (itemsOf (reqJane "1 Old St" "2701"))),
        "2701"⟩ {} 1000000 DraftOutcome.fail).draftOrderCalls = 1
      ∧ ∃ row, (runPipeline ⟨extractCustomerInfo (reqJane "1 Old St" "2701"),
          itemsOf (reqJane "1 Old St" "2701"),
          formatProductDetails (some (itemsOf (reqJane "1 Old St" "2701"))),
          "2701"⟩ {} 1000000 DraftOutcome.fail).store.rows = ([] : List Inquiry) ++ [row]
        ∧ row.status = "new" ∧ row.draft_order_id = none :=
  draft_failure_inquiry_still_persisted (reqJane "1 Old St" "2701") csW okOracleW
    1000000 _ {} 1000000 rfl (by decide)

/-- C3: the response of a run is exactly the response computed by the
synchronous handler — identical for every store content and every
draft-order outcome, so it never depends on the pipeline — and in the
event trace the response event precedes every pipeline event, with
nothing but the zone-cache reload of the lookup before it (enqueuing
itself performs no store or gateway work on the calling path). -/
theorem response_sent_before_pipeline (p : Payload) (cs : CacheState)
    (cacheO : Nat → DbOutcome) (s1 s2 : Store) (d1 d2 : DraftOutcome)
    (now : Nat) (fault : Bool) :
    (runRateRequest p cs cacheO s1 d1 now fault).rates
        = (handleCarrierRates p cs cacheO now fault).rates
      ∧ (runRateRequest p cs cacheO s1 d1 now fault).rates
        = (runRateRequest p cs cacheO s2 d2 now fault).rates
      ∧ (runRateRequest p cs cacheO s1 d1 now fault).status
        = (runRateRequest p cs cacheO s2 d2 now fault).status
      ∧ ∃ pre post, (runRateRequest p cs cacheO s1 d1 now fault).events
          = pre ++ Ev.responded :: post
        ∧ ∀ e, e ∈ pre → e = Ev.cacheReload := by
  rcases hj : (handleCarrierRates p cs cacheO now fault).job with _ | job
  · simp only [runRateRequest, hj]
    refine ⟨trivial, trivial, trivial,
      if (handleCarrierRates p cs cacheO now fault).didReload
        then [Ev.cacheReload] else [], [], rfl, ?_⟩
    intro e he
    rcases hdr : (handleCarrierRates p cs cacheO now fault).didReload <;>
      simp [hdr] at he
    exact he
  · simp only [runRateRequest, hj]
    refine ⟨trivial, trivial, trivial,
      if (handleCarrierRates p cs cacheO now fault).didReload
        then [Ev.cacheReload] else [],
      (runPipeline job s1 now d1).events, rfl, ?_⟩
    intro e he
    rcases hdr : (handleCarrierRates p cs cacheO now fault).didReload <;>
      simp [hdr] at he
    exact he

/-- C3 witness: instance of the ordering and independence statement at
the concrete no-match request, two different stores and two different
gateway outcomes. -/
theorem response_sent_before_pipeline_witness :
    (runRateRequest (reqJane "1 Old St" "2701") csW okOracleW {}
        (DraftOutcome.ok 42) 1000000 false).rates
        = (handleCarrierRates (reqJane "1 Old St" "2701") csW okOracleW
            1000000 false).rates
      ∧ (runRateRequest (reqJane "1 Old St" "2701") csW okOracleW {}
          (DraftOutcome.ok 42) 1000000 false).rates
        = (runRateRequest (reqJane "1 Old St" "2701") csW okOracleW run1.store
            DraftOutcome.fail 1000000 false).rates
      ∧ (runRateRequest (reqJane "1 Old St" "2701") csW okOracleW {}
          (DraftOutcome.ok 42) 1000000 false).status
        = (runRateRequest (reqJane "1 Old St" "2701") csW okOracleW run1.store
            DraftOutcome.fail 1000000 false).status
      ∧ ∃ pre post, (runRateRequest (reqJane "1 Old St" "2701") csW okOracleW {}
          (DraftOutcome.ok 42) 1000000 false).events
          = pre ++ Ev.responded :: post
        ∧ ∀ e, e ∈ pre → e = Ev.cacheReload :=
  response_sent_before_pipeline (reqJane "1 Old St" "2701") csW okOracleW
    {} run1.store (DraftOutcome.ok 42) DraftOutcome.fail 1000000 false
